import Mathlib

/-!
# Verification of the reactive control-binding layer (`FormControlName`)

Shallow embedding of the repository's reactive-forms control-binding code:

* `src/shims/util.ts` — `looseIdentical` (value-identity check with NaN
  handling).
* `src/directives/reactive_directives/form_control_name.ts` — the
  `FormControlName` directive: constructor, `ngOnChanges`, `ngOnDestroy`,
  `viewToModelUpdate`, the `path` / `formDirective` / `validator` /
  `asyncValidator` getters, `_checkParentType` and `_setUpControl`.

Helpers that the directive imports from `directives/shared.ts`,
`directives/reactive_errors.ts` and the sibling directive files are not part
of the staged sources; where needed they are modelled from the spec, and each
such definition carries a doc comment starting `Modelled from the spec:`.

JavaScript values are embedded as the inductive `JSValue`; a JS number is
either `NaN` or a finite value (finite values are modelled as integers — the
only properties used here are equality and NaN-ness).  Exceptions are
embedded explicitly: a step function returns the state reached, the list of calls
made to external collaborators (the effect trace), and the error raised, if
any, at the point it was raised.
-/

/-- A JavaScript number: `NaN` or a finite value. The code under study only
ever distinguishes NaN from non-NaN and compares numbers for equality, so
finite values are carried as integers. -/
inductive JSNum where
  | nan : JSNum
  | val (x : Int) : JSNum
deriving DecidableEq

/-- A JavaScript runtime value, as far as the binding layer observes it:
numbers, strings, booleans, `null`, `undefined`, and opaque object
references compared by identity. -/
inductive JSValue where
  | num (n : JSNum) : JSValue
  | str (s : String) : JSValue
  | boolean (b : Bool) : JSValue
  | nullV : JSValue
  | undef : JSValue
  | obj (id : Nat) : JSValue
deriving DecidableEq

/-- JavaScript strict equality `===`: same-type comparison, with
`NaN === x` and `x === NaN` false for every `x` (including `NaN` itself);
objects compare by identity. -/
def strictEq : JSValue → JSValue → Bool
  | .num .nan, _ => false
  | _, .num .nan => false
  | .num (.val x), .num (.val y) => x == y
  | .str s, .str t => s == t
  | .boolean a, .boolean b => a == b
  | .nullV, .nullV => true
  | .undef, .undef => true
  | .obj i, .obj j => i == j
  | _, _ => false

/-- JavaScript `typeof v === 'number'`. -/
def typeofNumber : JSValue → Bool
  | .num _ => true
  | _ => false

/-- `isNaN` restricted to values that are numbers.  (JavaScript's global
`isNaN` coerces non-numbers, but in `looseIdentical` it is only ever reached
behind a `typeof === 'number'` guard, so on non-numbers this definition's
result is never observed.) -/
def numIsNaN : JSValue → Bool
  | .num .nan => true
  | _ => false

/-- `looseIdentical` from `src/shims/util.ts`:
`a === b || (typeof a === 'number' && typeof b === 'number' && isNaN(a) && isNaN(b))`. -/
def looseIdentical (a b : JSValue) : Bool :=
  strictEq a b || (typeofNumber a && typeofNumber b && numIsNaN a && numIsNaN b)

/-- The JS `NaN` value. -/
def nanV : JSValue := JSValue.num JSNum.nan

/-! ## Validators and value accessors -/

/-- A validation-error mapping (named errors), as an association list from
error key to error value. -/
def ValidationErrors := List (String × JSValue)

/-- A synchronous validator function: control value to error mapping or
no-error (`none`). -/
def ValidatorFn := JSValue → Option ValidationErrors

/-- A deferred (eventually-resolved) result, the shallow embedding of the
promise/observable a single async validator produces. -/
structure Deferred (α : Type) where
  result : α

/-- An async validator function: control value to a deferred error mapping. -/
def AsyncValidatorFn := JSValue → Deferred (Option ValidationErrors)

/-- A raw entry of the injected sync-validator list: either a plain
`ValidatorFn` or a `Validator` instance exposing `validate`. -/
inductive RawValidator where
  | fn (f : ValidatorFn) : RawValidator
  | obj (validate : ValidatorFn) : RawValidator

/-- A raw entry of the injected async-validator list. -/
inductive RawAsyncValidator where
  | fn (f : AsyncValidatorFn) : RawAsyncValidator
  | obj (validate : AsyncValidatorFn) : RawAsyncValidator

/-- Modelled from the spec: `normalizeValidator` (from `directives/shared.ts`,
which is not among the staged sources) turns a `Validator` instance into the
plain function that calls its `validate` method. -/
def normalizeValidator : RawValidator → ValidatorFn
  | .fn f => f
  | .obj v => v

/-- Modelled from the spec: async counterpart of `normalizeValidator`. -/
def normalizeAsyncValidator : RawAsyncValidator → AsyncValidatorFn
  | .fn f => f
  | .obj v => v

/-- `Object.assign`-style insertion of one key/value pair into an error
mapping: an existing key is overwritten in place, a new key is appended. -/
def assignError (acc : ValidationErrors) (kv : String × JSValue) : ValidationErrors :=
  if (List.any acc fun p => p.1 == kv.1) then
    List.map (fun p => if p.1 == kv.1 then kv else p) acc
  else
    List.append acc [kv]

/-- Merge the individual validators' results in list order, later entries
winning on key collisions; an overall empty merge means "no error". -/
def mergeErrors (results : List (Option ValidationErrors)) : Option ValidationErrors :=
  let merged : ValidationErrors :=
    results.foldl (fun acc r => match r with
      | none => acc
      | some errs => errs.foldl assignError acc) []
  if merged.isEmpty then none else some merged

/-- Modelled from the spec: `composeValidators` (from `directives/shared.ts`,
not among the staged sources).  "Empty input composes to `null` (meaning "no
constraint") ... Non-empty input composes to a single function that runs
every validator in list order against the current control value and merges
their results", later validators winning on overlapping keys. -/
def composeValidators (l : List RawValidator) : Option ValidatorFn :=
  if l.isEmpty then none
  else some fun v => mergeErrors (l.map fun rv => normalizeValidator rv v)

/-- Modelled from the spec: `composeAsyncValidators` (from
`directives/shared.ts`, not among the staged sources).  The composite
resolves only after all members complete, merging results the same way as
the sync composite. -/
def composeAsyncValidators (l : List RawAsyncValidator) : Option AsyncValidatorFn :=
  if l.isEmpty then none
  else some fun v => ⟨mergeErrors (l.map fun rv => (normalizeAsyncValidator rv v).result)⟩

/-- The precedence class of a value accessor: the default accessor, a
built-in one, or a user-supplied custom one. -/
inductive AccessorTag where
  | defaultA : AccessorTag
  | builtin : AccessorTag
  | custom : AccessorTag
deriving DecidableEq

/-- A `ControlValueAccessor` as the directive observes it: its precedence
class and whether it implements the optional `setDisabledState` method. -/
structure ControlValueAccessor where
  tag : AccessorTag
  hasSetDisabledState : Bool
deriving DecidableEq

/-! ## Errors -/

/-- The named configuration errors raised through `ReactiveErrors`
(`directives/reactive_errors.ts`, not among the staged sources; the two
members used by `FormControlName._checkParentType` are modelled as distinct
named errors, per the spec's taxonomy of "distinct, named configuration
errors"). -/
inductive ReactiveError where
  | ngModelGroupException : ReactiveError
  | controlParentException : ReactiveError
deriving DecidableEq

/-- An error surfaced by a directive operation: a named configuration error,
a JS `TypeError` (property access on `null`/`undefined`), or the accessor
selection error.  -/
inductive JsError where
  | reactive (e : ReactiveError) : JsError
  | typeError : JsError
  | accessorSelection : JsError
deriving DecidableEq

/-- Modelled from the spec: `selectValueAccessor` (from
`directives/shared.ts`, not among the staged sources).  "selected per
directive instance from a list of available accessors using a defined
precedence (a custom accessor, if present, wins over built-in ones; exactly
one must remain after filtering, else a configuration error)". -/
def selectValueAccessor (vas : Option (List ControlValueAccessor)) :
    Except JsError ControlValueAccessor :=
  let l := vas.getD []
  match l.filter (fun v => v.tag == AccessorTag.custom) with
  | [c] => .ok c
  | _ :: _ :: _ => .error .accessorSelection
  | [] =>
    match l.filter (fun v => v.tag == AccessorTag.builtin) with
    | [b] => .ok b
    | _ :: _ :: _ => .error .accessorSelection
    | [] =>
      match l.filter (fun v => v.tag == AccessorTag.defaultA) with
      | [d] => .ok d
      | _ => .error .accessorSelection

/-! ## The parent chain and the form directive -/

/-- The runtime class of the directive's injected parent `ControlContainer`.
The class hierarchy is that of the directive files this module imports
(`form_group_directive.ts`, `form_group_name.ts`,
`abstract_form_group_directive.ts`, not among the staged sources):
`FormGroupName` extends `AbstractFormGroupDirective`; `FormGroupDirective`
and `FormArrayName` do not; `ngModelGroup` stands for any other
`AbstractFormGroupDirective` subclass; `other` for any remaining
`ControlContainer`. -/
inductive ParentKind where
  | formGroupName : ParentKind
  | formArrayName : ParentKind
  | formGroupDirective : ParentKind
  | ngModelGroup : ParentKind
  | other : ParentKind
deriving DecidableEq

/-- The ancestor-container chain above a directive: the form root, or a
named nesting step below an outer chain. -/
inductive ParentChain where
  | root : ParentChain
  | nested (name : String) (up : ParentChain) : ParentChain
deriving DecidableEq

/-- The resolved path a container chain exposes: each ancestor contributes
its own segment, outermost first. -/
def chainPath : ParentChain → List String
  | .root => []
  | .nested n up => List.append (chainPath up) [n]

/-- The `FormControl` model node, as far as `FormControlName` observes it at
setup: its disabled flag. -/
structure FormControl where
  disabled : Bool
deriving DecidableEq

/-- The top-level form directive reachable through the parent chain, as far
as this directive observes it: the control node its `addControl` returns for
this directive (the model node must pre-exist; `addControl` only looks it up
and registers the binding). -/
structure FormDirective where
  addControlReturns : FormControl
deriving DecidableEq

/-- The injected parent `ControlContainer` reference: its runtime class, its
ancestor chain (what its own `path` getter walks), and the top-level form
directive it exposes (`null` when there is none). -/
structure ParentRef where
  kind : ParentKind
  chain : ParentChain
  formDirective : Option FormDirective
deriving DecidableEq

/-- The parent's own resolved path, as its `path` getter exposes it. -/
def ParentRef.path (p : ParentRef) : List String := chainPath p.chain

/-- Modelled from the spec: `controlPath` (from `directives/shared.ts`, not
among the staged sources).  "Walks from the given container upward through
ancestor container bindings (each ancestor directive exposes its own
resolved path) and appends the local segment." -/
def controlPath (name : String) (parent : ParentRef) : List String :=
  List.append parent.path [name]

/-- `x instanceof FormGroupName` on a possibly-null parent. -/
def instanceofFormGroupName : Option ParentKind → Bool
  | some .formGroupName => true
  | _ => false

/-- `x instanceof AbstractFormGroupDirective` on a possibly-null parent:
true for `FormGroupName` (a subclass) and for the other
`AbstractFormGroupDirective` subclasses (`ngModelGroup`). -/
def instanceofAbstractFormGroupDirective : Option ParentKind → Bool
  | some .formGroupName => true
  | some .ngModelGroup => true
  | _ => false

/-- `x instanceof FormGroupDirective` on a possibly-null parent. -/
def instanceofFormGroupDirective : Option ParentKind → Bool
  | some .formGroupDirective => true
  | _ => false

/-- `x instanceof FormArrayName` on a possibly-null parent. -/
def instanceofFormArrayName : Option ParentKind → Bool
  | some .formArrayName => true
  | _ => false

/-! ## The directive's state and lifecycle inputs -/

/-- The mutable state of one `FormControlName` instance: the fields the
staged class declares (`_parent`, `_rawValidators`, `_rawAsyncValidators`,
`valueAccessor` inherited from `NgControl`; `_added`, `viewModel`, `model`,
`control`, `name` declared here).  `control` is `none` until `_setUpControl`
assigns it. -/
structure FCNState where
  _parent : Option ParentRef
  _rawValidators : List RawValidator
  _rawAsyncValidators : List RawAsyncValidator
  valueAccessor : Option ControlValueAccessor
  _added : Bool
  viewModel : JSValue
  model : JSValue
  control : Option FormControl
  name : String

/-- One recorded change of `SimpleChanges`: the input's current value and
whether this is its first change. -/
structure InputChange where
  currentValue : JSValue
  firstChange : Bool
deriving DecidableEq

/-- The `SimpleChanges` object handed to `ngOnChanges`: the entry for the
`name` input (`formControlName`) and the entry for the `model` input, each
present exactly when that input changed in this detection pass. -/
structure SimpleChanges where
  nameChange : Option InputChange
  modelChange : Option InputChange
deriving DecidableEq

/-- Modelled from the spec: `isPropertyUpdated` (from
`directives/shared.ts`, not among the staged sources): no `model` entry
means no update; a first change is always an update; otherwise the view
model is compared with the change's current value by the value-identity
check. -/
def isPropertyUpdated (changes : SimpleChanges) (viewModel : JSValue) : Bool :=
  match changes.modelChange with
  | none => false
  | some c => c.firstChange || !looseIdentical viewModel c.currentValue

/-! ## Effects and step results -/

/-- A call made to an external collaborator, in program order: registration
and removal through the parent form directive, the disabled-state call on
the value accessor, the model update through the form directive, the
directive's own view-model cache write, and the `ngModelChange` emission. -/
inductive Effect where
  | addControl : Effect
  | removeControl : Effect
  | setDisabledState (b : Bool) : Effect
  | updateModel (v : JSValue) : Effect
  | setViewModel (v : JSValue) : Effect
  | emitUpdate (v : JSValue) : Effect
deriving DecidableEq

/-- The outcome of one directive operation: the state reached, the effect
trace (the collaborator calls made, in order, before any raise), and the
error raised, if any.  A raised error aborts the rest of the operation but
keeps the mutations and calls already made. -/
structure StepOut where
  state : FCNState
  effects : List Effect
  error : Option JsError

namespace FormControlName

/-- The constructor of `FormControlName`
(`form_control_name.ts`, lines 108–122): stores the injected parent, sets
`_rawValidators = validators || []` and
`_rawAsyncValidators = asyncValidators || []`, and selects the value
accessor.  `_added` starts false, `control` unassigned; `viewModel` and
`model` start `undefined`.  The selection error propagates. -/
def mk (parent : Option ParentRef) (validators : Option (List RawValidator))
    (asyncValidators : Option (List RawAsyncValidator))
    (valueAccessors : Option (List ControlValueAccessor)) (name : String) :
    Except JsError FCNState :=
  match selectValueAccessor valueAccessors with
  | .error e => .error e
  | .ok va => .ok {
      _parent := parent
      _rawValidators := validators.getD []
      _rawAsyncValidators := asyncValidators.getD []
      valueAccessor := some va
      _added := false
      viewModel := JSValue.undef
      model := JSValue.undef
      control := none
      name := name }

/-- The `path` getter (lines 164–166): `controlPath(this.name, this._parent!)`,
recomputed on every read; `none` embeds the raise a null parent causes. -/
def path (s : FCNState) : Option (List String) :=
  s._parent.map fun p => controlPath s.name p

/-- The `formDirective` getter (lines 172–174):
`this._parent ? this._parent.formDirective : null`. -/
def formDirective (s : FCNState) : Option FormDirective :=
  match s._parent with
  | none => none
  | some p => p.formDirective

/-- The `validator` getter (lines 181–183):
`composeValidators(this._rawValidators)`, recomputed on every read. -/
def validator (s : FCNState) : Option ValidatorFn :=
  composeValidators s._rawValidators

/-- The `asyncValidator` getter (lines 190–192):
`composeAsyncValidators(this._rawAsyncValidators)!`, recomputed on every
read (the non-null assertion is kept as the `Option`). -/
def asyncValidator (s : FCNState) : Option AsyncValidatorFn :=
  composeAsyncValidators s._rawAsyncValidators

/-- `_checkParentType` (lines 194–207): the parent-kind check, returning the
named configuration error it raises, if any. -/
def _checkParentType (k : Option ParentKind) : Option JsError :=
  if !instanceofFormGroupName k && instanceofAbstractFormGroupDirective k then
    some (.reactive .ngModelGroupException)
  else if !instanceofFormGroupName k && !instanceofFormGroupDirective k
      && !instanceofFormArrayName k then
    some (.reactive .controlParentException)
  else
    none

/-- `_setUpControl` (lines 209–216): check the parent type; register through
`this.formDirective.addControl(this)` (a null form directive raises a
`TypeError` before any call); if the control is disabled and the accessor
has `setDisabledState`, call it with `true` (a null accessor raises after
registration, leaving `_added` unset); finally set `_added`. -/
def _setUpControl (s : FCNState) : StepOut :=
  match _checkParentType (s._parent.map (·.kind)) with
  | some e => ⟨s, [], some e⟩
  | none =>
    match formDirective s with
    | none => ⟨s, [], some JsError.typeError⟩
    | some fd =>
      let ctrl := fd.addControlReturns
      let s1 : FCNState := { s with control := some ctrl }
      if ctrl.disabled then
        match s.valueAccessor with
        | none => ⟨s1, [Effect.addControl], some JsError.typeError⟩
        | some va =>
          if va.hasSetDisabledState then
            ⟨{ s1 with _added := true },
             [Effect.addControl, Effect.setDisabledState true], none⟩
          else
            ⟨{ s1 with _added := true }, [Effect.addControl], none⟩
      else
        ⟨{ s1 with _added := true }, [Effect.addControl], none⟩

/-- `ngOnChanges` (lines 130–136): run `_setUpControl` when `_added` is
still false; then, when the `model` input was updated, write the model value
into the view-model cache and push it through
`this.formDirective.updateModel(this, this.model)`. -/
def ngOnChanges (c : SimpleChanges) (s : FCNState) : StepOut :=
  let r1 := if s._added then ⟨s, [], none⟩ else _setUpControl s
  match r1.error with
  | some e => ⟨r1.state, r1.effects, some e⟩
  | none =>
    if isPropertyUpdated c r1.state.viewModel then
      let s2 : FCNState := { r1.state with viewModel := r1.state.model }
      match formDirective s2 with
      | none => ⟨s2, r1.effects, some JsError.typeError⟩
      | some _ => ⟨s2, List.append r1.effects [Effect.updateModel s2.model], none⟩
    else
      ⟨r1.state, r1.effects, none⟩

/-- `ngOnDestroy` (lines 142–146): when the `formDirective` getter yields a
form directive, call its `removeControl`; otherwise do nothing.  No
operation in the body can raise. -/
def ngOnDestroy (s : FCNState) : StepOut :=
  match formDirective s with
  | some _ => ⟨s, [Effect.removeControl], none⟩
  | none => ⟨s, [], none⟩

/-- `viewToModelUpdate` (lines 154–157): `this.viewModel = newValue` then
`this.update.emit(newValue)`, traced in that order. -/
def viewToModelUpdate (s : FCNState) (newValue : JSValue) : StepOut :=
  ⟨{ s with viewModel := newValue },
   [Effect.setViewModel newValue, Effect.emitUpdate newValue], none⟩

end FormControlName

/-- A sequence of change-detection passes: each pass invokes `ngOnChanges`
on the state the previous pass left.  An error raised in one pass propagates
to the host framework's error channel, but later passes still run on the
mutated state — effect traces concatenate across the whole sequence. -/
def runChanges : FCNState → List SimpleChanges → FCNState × List Effect
  | s, [] => (s, [])
  | s, c :: cs =>
    let r := FormControlName.ngOnChanges c s
    let rest := runChanges r.state cs
    (rest.1, List.append r.effects rest.2)

/-- Whether an effect is the registration call. -/
def isAddControl : Effect → Bool
  | .addControl => true
  | _ => false

/-- How many registration calls a trace contains. -/
def addControlCount (effs : List Effect) : Nat :=
  (effs.filter isAddControl).length

/-- Whether an effect is the `ngModelChange` emission. -/
def isEmit : Effect → Bool
  | .emitUpdate _ => true
  | _ => false

/-- The values emitted through `ngModelChange`, in order. -/
def emittedValues (effs : List Effect) : List JSValue :=
  effs.foldr (fun e acc => match e with
    | .emitUpdate v => v :: acc
    | _ => acc) []

/-- How many `setDisabledState true` calls a trace contains. -/
def setDisabledTrueCount (effs : List Effect) : Nat :=
  (effs.filter (fun e => e == Effect.setDisabledState true)).length

/-! ## Concrete instances used by witnesses and counterexamples -/

/-- A form directive whose `addControl` yields an enabled control. -/
def cFD : FormDirective := ⟨⟨false⟩⟩

/-- A form directive whose `addControl` yields a disabled control. -/
def cFDdisabled : FormDirective := ⟨⟨true⟩⟩

/-- A default value accessor implementing `setDisabledState`. -/
def cVA : ControlValueAccessor := ⟨AccessorTag.defaultA, true⟩

/-- A `FormGroupDirective` parent at the form root. -/
def cParentG : ParentRef := ⟨ParentKind.formGroupDirective, ParentChain.root, some cFD⟩

/-- A `FormGroupDirective` parent whose located control is disabled. -/
def cParentDis : ParentRef := ⟨ParentKind.formGroupDirective, ParentChain.root, some cFDdisabled⟩

/-- A `FormGroupName` parent one level below the root. -/
def cParentNested : ParentRef :=
  ⟨ParentKind.formGroupName, ParentChain.nested "address" ParentChain.root, some cFD⟩

/-- An `ngModelGroup`-style parent: an `AbstractFormGroupDirective` that is
not a `FormGroupName`. -/
def cParentMG : ParentRef := ⟨ParentKind.ngModelGroup, ParentChain.root, some cFD⟩

/-- A freshly constructed directive bound to `"first"` under `cParentG`. -/
def cState0 : FCNState :=
  ⟨some cParentG, [], [], some cVA, false, JSValue.undef, JSValue.undef, none, "first"⟩

/-- A fresh directive bound to `"city"` under the nested group parent. -/
def cStateNested : FCNState :=
  ⟨some cParentNested, [], [], some cVA, false, JSValue.undef, JSValue.undef, none, "city"⟩

/-- A fresh directive whose located control is disabled. -/
def cStateDis : FCNState :=
  ⟨some cParentDis, [], [], some cVA, false, JSValue.undef, JSValue.undef, none, "first"⟩

/-- A fresh directive under the `ngModelGroup`-style parent. -/
def cStateMG : FCNState :=
  ⟨some cParentMG, [], [], some cVA, false, JSValue.undef, JSValue.undef, none, "x"⟩

/-- A fresh directive with no parent container at all. -/
def cNoParent : FCNState :=
  ⟨none, [], [], some cVA, false, JSValue.undef, JSValue.undef, none, "x"⟩

/-- The first change-detection pass: the name input receives `"first"`. -/
def cFirstPass : SimpleChanges := ⟨some ⟨JSValue.str "first", true⟩, none⟩

/-- A later pass in which the name input changes to `"second"`. -/
def cRenamePass : SimpleChanges := ⟨some ⟨JSValue.str "second", false⟩, none⟩

/-- The directive state after its first (successful) pass. -/
def cAdded : FCNState := (FormControlName.ngOnChanges cFirstPass cState0).state

/-- A concrete raw sync validator. -/
def cRawFn : RawValidator := RawValidator.fn fun _ => some [("required", JSValue.boolean true)]

/-- A concrete raw async validator. -/
def cRawAsync : RawAsyncValidator := RawAsyncValidator.fn fun _ => ⟨none⟩

/-- A directive carrying the concrete raw validator lists. -/
def cV1 : FCNState :=
  ⟨some cParentG, [cRawFn], [cRawAsync], some cVA, false, JSValue.undef, JSValue.undef, none, "a"⟩

/-- A directive with the same raw validator lists but every other mutable
field different from `cV1`. -/
def cV2 : FCNState :=
  ⟨some cParentNested, [cRawFn], [cRawAsync], some ⟨AccessorTag.custom, false⟩, true,
   JSValue.str "x", JSValue.str "y", some ⟨false⟩, "b"⟩

/-! ## Theorems -/

/-- Effect counts add over concatenated traces. -/
theorem addControlCount_append (a b : List Effect) :
    addControlCount (a ++ b) = addControlCount a + addControlCount b := by
  simp [addControlCount, List.filter_append]

/-- C3: the value-identity check returns true exactly when the arguments are
strictly equal or are both NaN numbers; in particular `looseIdentical`
equates `NaN` with `NaN` while strict equality does not. -/
theorem looseIdentical_nan_spec (a b : JSValue) :
    (looseIdentical a b = true ↔
      (strictEq a b = true ∨
        (typeofNumber a = true ∧ typeofNumber b = true ∧
         numIsNaN a = true ∧ numIsNaN b = true))) ∧
    looseIdentical nanV nanV = true ∧ strictEq nanV nanV = false := by
  refine ⟨?_, by decide, by decide⟩
  simp [looseIdentical, Bool.or_eq_true, Bool.and_eq_true, and_assoc]

/-- C5: the `path` getter is derived state: it recomputes the parent
container's path with the local name appended on every read, so it is a
function of the current name and parent chain alone — any two states
agreeing on those two fields read the same path. -/
theorem path_is_derived_state (s : FCNState) (p : ParentRef)
    (h : s._parent = some p) :
    FormControlName.path s = some (List.append (chainPath p.chain) [s.name]) ∧
    (∀ t : FCNState, t.name = s.name → t._parent = s._parent →
      FormControlName.path t = FormControlName.path s) := by
  constructor
  · simp [FormControlName.path, h, controlPath, ParentRef.path]
  · intro t h1 h2
    simp [FormControlName.path, h1, h2]

/-- Witness for C5 at a concrete nested parent: the read path is the
parent's path plus the local segment. -/
theorem path_is_derived_state_witness :
    FormControlName.path cStateNested = some ["address", "city"] :=
  (path_is_derived_state cStateNested cParentNested rfl).1

/-- C6: `viewToModelUpdate` writes the new value into the view-model cache,
then emits exactly one `ngModelChange` event carrying exactly that value;
every emission in the trace is preceded by the cache write. -/
theorem viewToModelUpdate_cache_then_emit (s : FCNState) (v : JSValue) :
    (FormControlName.viewToModelUpdate s v).state.viewModel = v ∧
    emittedValues (FormControlName.viewToModelUpdate s v).effects = [v] ∧
    (FormControlName.viewToModelUpdate s v).error = none ∧
    (∀ pre e post,
      (FormControlName.viewToModelUpdate s v).effects = List.append pre (e :: post) →
      isEmit e = true → Effect.setViewModel v ∈ pre) := by
  refine ⟨rfl, rfl, rfl, ?_⟩
  intro pre e post hsplit hemit
  match pre, hsplit with
  | [], hsplit =>
    cases hsplit
    cases hemit
  | [x], hsplit =>
    cases hsplit
    exact List.mem_singleton.mpr rfl
  | x :: y :: rest, hsplit =>
    injection hsplit with h1 h2
    injection h2 with h3 h4
    cases rest with
    | nil => exact List.noConfusion h4
    | cons r rs => exact List.noConfusion h4

/-- C7: `ngOnDestroy` calls the parent form's `removeControl` exactly once
when a form directive is reachable, does nothing when it is not, and never
raises. -/
theorem ngOnDestroy_removes_once_or_noop (s : FCNState) :
    (∀ fd, FormControlName.formDirective s = some fd →
      (FormControlName.ngOnDestroy s).effects = [Effect.removeControl]) ∧
    (FormControlName.formDirective s = none →
      (FormControlName.ngOnDestroy s).effects = []) ∧
    (FormControlName.ngOnDestroy s).error = none := by
  cases h : FormControlName.formDirective s with
  | none =>
    refine ⟨fun fd hfd => ?_, fun _ => ?_, ?_⟩
    · exact Option.noConfusion hfd
    · simp [FormControlName.ngOnDestroy, h]
    · simp [FormControlName.ngOnDestroy, h]
  | some fd =>
    refine ⟨fun fd' hfd => ?_, fun hn => ?_, ?_⟩
    · simp [FormControlName.ngOnDestroy, h]
    · exact Option.noConfusion hn
    · simp [FormControlName.ngOnDestroy, h]

/-- C8: the composed validator and async validator are memo-free derived
values: each read recomputes the composite from the current raw list, so the
getters are functions of the raw lists alone and always reflect the lists as
they stand at read time. -/
theorem validator_getters_memo_free (s t : FCNState)
    (h : s._rawValidators = t._rawValidators)
    (h2 : s._rawAsyncValidators = t._rawAsyncValidators) :
    FormControlName.validator s = FormControlName.validator t ∧
    FormControlName.asyncValidator s = FormControlName.asyncValidator t ∧
    FormControlName.validator s = composeValidators s._rawValidators ∧
    FormControlName.asyncValidator s = composeAsyncValidators s._rawAsyncValidators ∧
    (∀ l, FormControlName.validator { s with _rawValidators := l } = composeValidators l) ∧
    (∀ l, FormControlName.asyncValidator { s with _rawAsyncValidators := l }
      = composeAsyncValidators l) := by
  refine ⟨?_, ?_, rfl, rfl, fun l => rfl, fun l => rfl⟩
  · simp [FormControlName.validator, h]
  · simp [FormControlName.asyncValidator, h2]

/-- Witness for C8: two directives sharing the raw lists but differing in
every other field read the same composite validator. -/
theorem validator_getters_memo_free_witness :
    FormControlName.validator cV1 = FormControlName.validator cV2 :=
  (validator_getters_memo_free cV1 cV2 rfl rfl).1

/-- C10: the constructor normalizes absent injected validator lists to the
empty list, so the `validator`/`asyncValidator` getters always compose over
a well-defined list. -/
theorem constructor_normalizes_validator_lists
    (p : Option ParentRef) (vs : Option (List RawValidator))
    (avs : Option (List RawAsyncValidator))
    (vas : Option (List ControlValueAccessor)) (n : String) (s : FCNState)
    (h : FormControlName.mk p vs avs vas n = .ok s) :
    s._rawValidators = vs.getD [] ∧
    s._rawAsyncValidators = avs.getD [] ∧
    (vs = none → s._rawValidators = []) ∧
    (avs = none → s._rawAsyncValidators = []) ∧
    FormControlName.validator s = composeValidators (vs.getD []) ∧
    FormControlName.asyncValidator s = composeAsyncValidators (avs.getD []) := by
  unfold FormControlName.mk at h
  cases hsel : selectValueAccessor vas with
  | error e => rw [hsel] at h; cases h
  | ok va =>
    rw [hsel] at h
    cases h
    exact ⟨rfl, rfl, fun hv => by simp [hv], fun hv => by simp [hv], rfl, rfl⟩

/-- Witness for C10: constructing with both injected lists absent yields
empty raw lists. -/
theorem constructor_normalizes_validator_lists_witness :
    cState0._rawValidators = [] :=
  (constructor_normalizes_validator_lists
    (some cParentG) none none (some [cVA]) "first" cState0 rfl).1

/-- C2: the parent-kind check runs before any registration: an
`AbstractFormGroupDirective` parent that is not a `FormGroupName` raises the
model-group error, a parent that is none of `FormGroupName`,
`FormGroupDirective`, `FormArrayName` raises the control-parent error, the
two errors are distinct, and in both cases setup stops with no registration
call and no state mutation. -/
theorem checkParentType_blocks_registration (s : FCNState) :
    ((instanceofAbstractFormGroupDirective (s._parent.map (·.kind)) = true ∧
      instanceofFormGroupName (s._parent.map (·.kind)) = false) →
      FormControlName._setUpControl s
        = ⟨s, [], some (JsError.reactive ReactiveError.ngModelGroupException)⟩) ∧
    ((instanceofFormGroupName (s._parent.map (·.kind)) = false ∧
      instanceofAbstractFormGroupDirective (s._parent.map (·.kind)) = false ∧
      instanceofFormGroupDirective (s._parent.map (·.kind)) = false ∧
      instanceofFormArrayName (s._parent.map (·.kind)) = false) →
      FormControlName._setUpControl s
        = ⟨s, [], some (JsError.reactive ReactiveError.controlParentException)⟩) ∧
    ReactiveError.ngModelGroupException ≠ ReactiveError.controlParentException := by
  refine ⟨fun ⟨h1, h2⟩ => ?_, fun ⟨h1, h2, h3, h4⟩ => ?_, by decide⟩
  · simp [FormControlName._setUpControl, FormControlName._checkParentType, h1, h2]
  · simp [FormControlName._setUpControl, FormControlName._checkParentType, h1, h2, h3, h4]

/-- C9: at setup, a disabled located control with an accessor supporting
`setDisabledState` gets exactly the call `setDisabledState(true)` after the
registration call; a non-disabled control gets no such call. -/
theorem setUpControl_applies_disabled_state (s : FCNState) (fd : FormDirective)
    (va : ControlValueAccessor)
    (hp : FormControlName._checkParentType (s._parent.map (·.kind)) = none)
    (hfd : FormControlName.formDirective s = some fd)
    (hva : s.valueAccessor = some va) :
    (fd.addControlReturns.disabled = true → va.hasSetDisabledState = true →
      (FormControlName._setUpControl s).effects
        = [Effect.addControl, Effect.setDisabledState true]) ∧
    (fd.addControlReturns.disabled = true → va.hasSetDisabledState = false →
      (FormControlName._setUpControl s).effects = [Effect.addControl]) ∧
    (fd.addControlReturns.disabled = false →
      ∀ b, Effect.setDisabledState b ∉ (FormControlName._setUpControl s).effects) := by
  refine ⟨fun hd hs => ?_, fun hd hs => ?_, fun hd b => ?_⟩
  · simp [FormControlName._setUpControl, hp, hfd, hva, hd, hs]
  · simp [FormControlName._setUpControl, hp, hfd, hva, hd, hs]
  · simp [FormControlName._setUpControl, hp, hfd, hva, hd]

/-- Witness for C9: a concrete disabled control with a supporting accessor
receives registration followed by `setDisabledState(true)`. -/
theorem setUpControl_applies_disabled_state_witness :
    (FormControlName._setUpControl cStateDis).effects
      = [Effect.addControl, Effect.setDisabledState true] :=
  (setUpControl_applies_disabled_state cStateDis cFDdisabled cVA rfl rfl rfl).1 rfl rfl

/-- Helper: after registration, `ngOnChanges` skips setup entirely — no
registration call is made, the `_added` flag stays set, and the fields the
update branch does not touch are preserved. -/
theorem ngOnChanges_skips_when_added (c : SimpleChanges) (s : FCNState)
    (hadded : s._added = true) :
    addControlCount (FormControlName.ngOnChanges c s).effects = 0 ∧
    (FormControlName.ngOnChanges c s).state._added = true ∧
    (FormControlName.ngOnChanges c s).state.valueAccessor = s.valueAccessor ∧
    (FormControlName.ngOnChanges c s).state.control = s.control ∧
    (FormControlName.ngOnChanges c s).state._parent = s._parent ∧
    (FormControlName.ngOnChanges c s).state.name = s.name := by
  unfold FormControlName.ngOnChanges
  rw [hadded]
  by_cases hup : isPropertyUpdated c s.viewModel
  · cases hP : s._parent with
    | none =>
      simp [hup, FormControlName.formDirective, hP, addControlCount, isAddControl, hadded]
    | some p =>
      cases hpf : p.formDirective with
      | none =>
        simp [hup, FormControlName.formDirective, hP, hpf, addControlCount, isAddControl, hadded]
      | some fd =>
        simp [hup, FormControlName.formDirective, hP, hpf, addControlCount, isAddControl, hadded]
  · simp [hup, addControlCount, isAddControl, hadded]

/-- Helper: when the parent-type check passes, a form directive is reachable
and an accessor was selected, `_setUpControl` registers exactly once, sets
`_added`, raises nothing, and preserves the fields it does not assign. -/
theorem setUpControl_success (s : FCNState) (fd : FormDirective)
    (va : ControlValueAccessor)
    (hp : FormControlName._checkParentType (s._parent.map (·.kind)) = none)
    (hfd : FormControlName.formDirective s = some fd)
    (hva : s.valueAccessor = some va) :
    (FormControlName._setUpControl s).error = none ∧
    addControlCount (FormControlName._setUpControl s).effects = 1 ∧
    (FormControlName._setUpControl s).state._added = true ∧
    (FormControlName._setUpControl s).state.valueAccessor = s.valueAccessor := by
  unfold FormControlName._setUpControl
  rw [hp, hfd, hva]
  cases hd : fd.addControlReturns.disabled with
  | false => simp [addControlCount, isAddControl, hd]
  | true =>
    cases hs : va.hasSetDisabledState with
    | false => simp [addControlCount, isAddControl, hd, hs]
    | true => simp [addControlCount, isAddControl, hd, hs]

/-- Helper: with a selected accessor, `_setUpControl` either succeeds —
registering exactly once and setting `_added` — or raises before any
registration, leaving the state untouched. -/
theorem setUpControl_with_accessor (s : FCNState) (hva : s.valueAccessor.isSome = true) :
    ((FormControlName._setUpControl s).error = none ∧
     addControlCount (FormControlName._setUpControl s).effects = 1 ∧
     (FormControlName._setUpControl s).state._added = true ∧
     (FormControlName._setUpControl s).state.valueAccessor = s.valueAccessor) ∨
    (∃ e, (FormControlName._setUpControl s).error = some e ∧
     (FormControlName._setUpControl s).state = s ∧
     (FormControlName._setUpControl s).effects = []) := by
  cases hpc : FormControlName._checkParentType (s._parent.map (·.kind)) with
  | some e =>
    right
    refine ⟨e, ?_, ?_, ?_⟩ <;> simp [FormControlName._setUpControl, hpc]
  | none =>
    cases hfd : FormControlName.formDirective s with
    | none =>
      right
      refine ⟨JsError.typeError, ?_, ?_, ?_⟩ <;>
        simp [FormControlName._setUpControl, hpc, hfd]
    | some fd =>
      left
      cases hvs : s.valueAccessor with
      | none => rw [hvs] at hva; cases hva
      | some va => exact hvs ▸ setUpControl_success s fd va hpc hfd hvs

/-- Helper: from an unregistered state with a selected accessor, one
`ngOnChanges` pass either registers exactly once and leaves the directive
registered, or makes no registration call and leaves the state exactly as it
was. -/
theorem ngOnChanges_unadded_cases (c : SimpleChanges) (s : FCNState)
    (hadded : s._added = false) (hva : s.valueAccessor.isSome = true) :
    (addControlCount (FormControlName.ngOnChanges c s).effects = 1 ∧
     (FormControlName.ngOnChanges c s).state._added = true ∧
     (FormControlName.ngOnChanges c s).state.valueAccessor = s.valueAccessor) ∨
    (addControlCount (FormControlName.ngOnChanges c s).effects = 0 ∧
     (FormControlName.ngOnChanges c s).state = s) := by
  rcases setUpControl_with_accessor s hva with ⟨herr, hcnt, hadd2, hvacc⟩ |
    ⟨e, herr, hst, heff⟩
  · left
    unfold FormControlName.ngOnChanges
    rw [hadded]
    simp only [Bool.false_eq_true, if_false]
    rw [herr]
    by_cases hup : isPropertyUpdated c (FormControlName._setUpControl s).state.viewModel
    · cases hP : (FormControlName._setUpControl s).state._parent with
      | none =>
        simp [hup, FormControlName.formDirective, hP, hcnt, hadd2, hvacc]
      | some p =>
        cases hpf : p.formDirective with
        | none =>
          simp [hup, FormControlName.formDirective, hP, hpf, hcnt, hadd2, hvacc]
        | some fd =>
          simp [hup, FormControlName.formDirective, hP, hpf, addControlCount_append,
            hcnt, hadd2, hvacc, show addControlCount [Effect.updateModel
            (FormControlName._setUpControl s).state.model] = 0 from rfl]
    · simp [hup, hcnt, hadd2, hvacc]
  · right
    unfold FormControlName.ngOnChanges
    rw [hadded]
    simp only [Bool.false_eq_true, if_false]
    rw [herr]
    simp [heff, hst, addControlCount]

/-- Helper: from an unregistered state with a valid parent, reachable form
directive and selected accessor, the first `ngOnChanges` pass registers
exactly once and sets `_added`. -/
theorem ngOnChanges_first_success (c : SimpleChanges) (s : FCNState)
    (fd : FormDirective) (va : ControlValueAccessor)
    (hadded : s._added = false)
    (hp : FormControlName._checkParentType (s._parent.map (·.kind)) = none)
    (hfd : FormControlName.formDirective s = some fd)
    (hva : s.valueAccessor = some va) :
    addControlCount (FormControlName.ngOnChanges c s).effects = 1 ∧
    (FormControlName.ngOnChanges c s).state._added = true := by
  rcases ngOnChanges_unadded_cases c s hadded (by rw [hva]; rfl) with
    ⟨h1, h2, h3⟩ | ⟨h1, h2⟩
  · exact ⟨h1, h2⟩
  · exfalso
    rcases setUpControl_success s fd va hp hfd hva with ⟨herr, hcnt, hadd2, hvacc⟩
    unfold FormControlName.ngOnChanges at h1
    rw [hadded] at h1
    simp only [Bool.false_eq_true, if_false] at h1
    rw [herr] at h1
    by_cases hup : isPropertyUpdated c (FormControlName._setUpControl s).state.viewModel
    · cases hP : (FormControlName._setUpControl s).state._parent with
      | none =>
        simp [hup, FormControlName.formDirective, hP, hcnt] at h1
      | some p =>
        cases hpf : p.formDirective with
        | none => simp [hup, FormControlName.formDirective, hP, hpf, hcnt] at h1
        | some fd2 =>
          simp [hup, FormControlName.formDirective, hP, hpf, addControlCount_append,
            hcnt] at h1
    · simp [hup, hcnt] at h1

/-- Helper: across any sequence of change-detection passes from a state with
a selected accessor, at most one registration call is ever made, and none at
all once the directive is registered. -/
theorem runChanges_addControl_le (cs : List SimpleChanges) (s : FCNState)
    (hva : s.valueAccessor.isSome = true) :
    addControlCount (runChanges s cs).2 ≤ 1 ∧
    (s._added = true → addControlCount (runChanges s cs).2 = 0) := by
  induction cs generalizing s with
  | nil => exact ⟨by simp [runChanges, addControlCount], fun _ => by
      simp [runChanges, addControlCount]⟩
  | cons c cs ih =>
    have hsplit : addControlCount (runChanges s (c :: cs)).2
        = addControlCount (FormControlName.ngOnChanges c s).effects
          + addControlCount (runChanges (FormControlName.ngOnChanges c s).state cs).2 := by
      show addControlCount (List.append (FormControlName.ngOnChanges c s).effects
        (runChanges (FormControlName.ngOnChanges c s).state cs).2) = _
      rw [List.append_eq, addControlCount_append]
    by_cases hadd : s._added = true
    · rcases ngOnChanges_skips_when_added c s hadd with ⟨h0, h1, h2, -, -, -⟩
      have ihh := ih (FormControlName.ngOnChanges c s).state (by rw [h2]; exact hva)
      constructor
      · rw [hsplit, h0, ihh.2 h1]
        norm_num
      · intro _
        rw [hsplit, h0, ihh.2 h1]
    · have hadd' : s._added = false := by
        cases h : s._added with
        | false => rfl
        | true => exact absurd h hadd
      rcases ngOnChanges_unadded_cases c s hadd' hva with ⟨h1, h2, h3⟩ | ⟨h1, h2⟩
      · have ihh := ih (FormControlName.ngOnChanges c s).state (by rw [h3]; exact hva)
        refine ⟨?_, fun habs => absurd habs hadd⟩
        rw [hsplit, h1, ihh.2 h2]
      · have ihh := ih (FormControlName.ngOnChanges c s).state (by rw [h2]; exact hva)
        refine ⟨?_, fun habs => absurd habs hadd⟩
        rw [hsplit, h1]
        simpa using ihh.1

/-- C1: setup is lazy and runs at most once.  A constructed directive starts
unregistered with no bound control; across any sequence of `ngOnChanges`
passes at most one `addControl` registration is ever made; with a valid
parent and reachable form directive the first pass registers exactly once
and sets `_added`; and from any registered state a pass makes no
registration call and keeps `_added` set. -/
theorem setup_runs_at_most_once
    (p : Option ParentRef) (vs : Option (List RawValidator))
    (avs : Option (List RawAsyncValidator))
    (vas : Option (List ControlValueAccessor)) (n : String)
    (s0 : FCNState) (cs : List SimpleChanges)
    (h : FormControlName.mk p vs avs vas n = .ok s0) :
    s0._added = false ∧ s0.control = none ∧
    addControlCount (runChanges s0 cs).2 ≤ 1 ∧
    (∀ c fd, FormControlName._checkParentType (s0._parent.map (·.kind)) = none →
      FormControlName.formDirective s0 = some fd →
      addControlCount (FormControlName.ngOnChanges c s0).effects = 1 ∧
      (FormControlName.ngOnChanges c s0).state._added = true) ∧
    (∀ c t, t._added = true →
      addControlCount (FormControlName.ngOnChanges c t).effects = 0 ∧
      (FormControlName.ngOnChanges c t).state._added = true) := by
  have hfields : s0._added = false ∧ s0.control = none ∧
      ∃ va, s0.valueAccessor = some va := by
    unfold FormControlName.mk at h
    cases hsel : selectValueAccessor vas with
    | error e => rw [hsel] at h; cases h
    | ok va => rw [hsel] at h; cases h; exact ⟨rfl, rfl, va, rfl⟩
  obtain ⟨hadded, hctrl, va, hva⟩ := hfields
  refine ⟨hadded, hctrl, ?_, ?_, ?_⟩
  · exact (runChanges_addControl_le cs s0 (by rw [hva]; rfl)).1
  · intro c fd hp hfd
    exact ngOnChanges_first_success c s0 fd va hadded hp hfd hva
  · intro c t ht
    rcases ngOnChanges_skips_when_added c t ht with ⟨h0, h1, -, -, -, -⟩
    exact ⟨h0, h1⟩

/-- Witness for C1: a concrete constructed directive, run through three
passes (first registration, a later name change, an idle pass), registers
exactly once. -/
theorem setup_runs_at_most_once_witness :
    addControlCount (runChanges cState0 [cFirstPass, cRenamePass, ⟨none, none⟩]).2 ≤ 1 :=
  (setup_runs_at_most_once (some cParentG) none none (some [cVA]) "first" cState0
    [cFirstPass, cRenamePass, ⟨none, none⟩] rfl).2.2.1

/-- C4 counterexample: after the first successful setup the directive is
registered; a later pass in which the name input changed raises no error at
all (and performs no re-setup) — the rejection the claim asserts does not
happen. -/
theorem rename_after_registration_not_rejected :
    cAdded._added = true ∧
    cRenamePass.nameChange.isSome = true ∧
    (FormControlName.ngOnChanges cRenamePass cAdded).error = none ∧
    (FormControlName.ngOnChanges cRenamePass cAdded).effects = [] :=
  ⟨rfl, rfl, rfl, rfl⟩

/-- C4 (amended): once registered (with a form directive reachable), an
`ngOnChanges` pass in which the name input changed is silently ignored
rather than rejected: setup is not re-run, no error is raised, and the
directive keeps its registration and its originally bound control. -/
theorem rename_after_registration_ignored (c : SimpleChanges) (s : FCNState)
    (fd : FormDirective)
    (hadded : s._added = true)
    (hfd : FormControlName.formDirective s = some fd) :
    addControlCount (FormControlName.ngOnChanges c s).effects = 0 ∧
    (FormControlName.ngOnChanges c s).error = none ∧
    (FormControlName.ngOnChanges c s).state._added = true ∧
    (FormControlName.ngOnChanges c s).state.control = s.control ∧
    (FormControlName.ngOnChanges c s).state.name = s.name := by
  rcases ngOnChanges_skips_when_added c s hadded with ⟨h0, h1, -, h3, h4, h5⟩
  refine ⟨h0, ?_, h1, h3, h5⟩
  unfold FormControlName.ngOnChanges
  rw [hadded]
  by_cases hup : isPropertyUpdated c s.viewModel
  · cases hP : s._parent with
    | none => simp [FormControlName.formDirective, hP] at hfd
    | some q =>
      cases hpf : q.formDirective with
      | none => simp [FormControlName.formDirective, hP, hpf] at hfd
      | some fd2 => simp [hup, FormControlName.formDirective, hP, hpf]
  · simp [hup]

/-- Witness for C4's amended statement: the concrete registered directive
ignores the concrete rename pass. -/
theorem rename_after_registration_ignored_witness :
    addControlCount (FormControlName.ngOnChanges cRenamePass cAdded).effects = 0 :=
  (rename_after_registration_ignored cRenamePass cAdded cFD rfl rfl).1
